import Mathlib

/-!
Verification development for the `storage-client` repository: a thin adapter
exposing a uniform file-storage interface over two S3-compatible backends
(AWS S3, Cloudflare R2). The definitions below are a shallow embedding of
`src/storage_client/s3.py`, `r2.py`, `s3_base.py` and
`storage_interface.py`. Calls into the underlying boto3 client are modelled
by an explicit outcome parameter; the local filesystem is modelled as the
list of existing directory paths; Python strings are Lean `String`s and the
`None`-able parameters are `Option String`.
-/

namespace StorageClient

/-- Python truthiness of an `Optional[str]` value: `None` and the empty
string are falsy, every other string is truthy. This is the test performed
by `if not self.access_key:` in `s3.py` / `r2.py`. -/
def strTruthy : Option String → Bool
  | none => false
  | some s => s ≠ ""

/-- Python `a or b` on `Optional[str]` values, as used in
`access_key or os.environ.get(...)` (`s3.py` line 15, `r2.py` line 16):
the left operand wins when truthy, otherwise the right operand is
returned. -/
def pyOr (a b : Option String) : Option String :=
  if strTruthy a then a else b

/-- Process environment as consulted by the two constructors, one field per
environment variable (`os.environ.get` returns `None` for an unset
variable, i.e. `none` here). -/
structure Env where
  s3AccessKeyId : Option String
  s3SecretAccessKey : Option String
  r2AccessKeyId : Option String
  r2SecretAccessKey : Option String
  r2AccountId : Option String
deriving DecidableEq, Repr

/-- Environment with no variable set. -/
def emptyEnv : Env := ⟨none, none, none, none, none⟩

/-- The `ValueError` raised by the constructors when required credential
fields are missing: it carries the list of missing parameter names and the
formatted message that joins them. -/
structure ConfigError where
  missing_params : List String
  message : String
deriving DecidableEq, Repr

/-- Message built by `S3Storage.__init__` (`s3.py` lines 26-30). -/
def s3MissingMessage (ps : List String) : String :=
  "Hey! You forgot to provide these parameters: " ++ String.intercalate ", " ps ++
  "! Either pass them directly or set these environment variables: " ++
  "S3_ACCESS_KEY_ID, S3_SECRET_ACCESS_KEY"

/-- Message built by `R2Storage.__init__` (`r2.py` lines 29-34). -/
def r2MissingMessage (ps : List String) : String :=
  "Hey! You forgot to provide these parameters: " ++ String.intercalate ", " ps ++
  "! Either pass them directly or set these environment variables: " ++
  "R2_ACCESS_KEY_ID, R2_SECRET_ACCESS_KEY, R2_ACCOUNT_ID"

/-- Arguments passed to `boto3.client` by the constructors; this record is
the embedding of the backend client handle held in `self.client`. -/
structure BotoClient where
  aws_access_key_id : Option String
  aws_secret_access_key : Option String
  endpoint_url : Option String
  region_name : String
deriving DecidableEq, Repr

/-- Attributes assigned by `S3Storage.__init__`: the resolved credentials
and the constructed client handle. -/
structure S3State where
  access_key : Option String
  secret_key : Option String
  client : BotoClient
deriving DecidableEq, Repr

/-- Attributes assigned by `R2Storage.__init__`. -/
structure R2State where
  access_key : Option String
  secret_key : Option String
  account_id : Option String
  client : BotoClient
deriving DecidableEq, Repr

/-- Embedding of `S3Storage.__init__` (`s3.py` lines 10-38). The `prev`
argument is the instance `StorageInterface.__new__` hands to `__init__`:
`cls._instance` when one exists (`storage_interface.py` lines 5-11), a
fresh object otherwise. `__init__` assigns every attribute unconditionally,
so the resulting state never depends on `prev`; keeping the argument
records that the second construction runs on the same shared object.
Credential resolution is parameter-or-environment (`pyOr`); if any resolved
field is falsy a `ValueError` naming all missing fields is raised,
otherwise the boto3 client is built (`region_name` is `auto` when `region`
is `None`). -/
def S3Storage_init (_prev : Option S3State)
    (access_key secret_access_key region : Option String) (env : Env) :
    Except ConfigError S3State :=
  let ak := pyOr access_key env.s3AccessKeyId
  let sk := pyOr secret_access_key env.s3SecretAccessKey
  let missing_params :=
    (if strTruthy ak = false then ["access_key"] else []) ++
    (if strTruthy sk = false then ["secret_access_key"] else [])
  if missing_params ≠ [] then
    .error ⟨missing_params, s3MissingMessage missing_params⟩
  else
    .ok { access_key := ak
          secret_key := sk
          client := { aws_access_key_id := ak
                      aws_secret_access_key := sk
                      endpoint_url := none
                      region_name := match region with | none => "auto" | some r => r } }

/-- Embedding of `R2Storage.__init__` (`r2.py` lines 10-42), analogous to
`S3Storage_init` with the extra required field `account_id` and an
`endpoint_url` built from it. The endpoint interpolation only runs on the
success path, where `account_id` is a non-empty string. -/
def R2Storage_init (_prev : Option R2State)
    (access_key secret_access_key account_id region : Option String) (env : Env) :
    Except ConfigError R2State :=
  let ak := pyOr access_key env.r2AccessKeyId
  let sk := pyOr secret_access_key env.r2SecretAccessKey
  let acc := pyOr account_id env.r2AccountId
  let missing_params :=
    (if strTruthy ak = false then ["access_key"] else []) ++
    (if strTruthy sk = false then ["secret_access_key"] else []) ++
    (if strTruthy acc = false then ["account_id"] else [])
  if missing_params ≠ [] then
    .error ⟨missing_params, r2MissingMessage missing_params⟩
  else
    .ok { access_key := ak
          secret_key := sk
          account_id := acc
          client := { aws_access_key_id := ak
                      aws_secret_access_key := sk
                      endpoint_url := some ("https://" ++ acc.getD "" ++ ".r2.cloudflarestorage.com")
                      region_name := match region with | none => "auto" | some r => r } }

/-- Modelled from Python `posixpath.basename` (used as `os.path.basename`
in `s3_base.py`): the part of the path after the last slash,
`p[p.rfind(sep) + 1:]`. -/
def basename (p : String) : String :=
  String.mk ((p.data.reverse.takeWhile (fun c => c ≠ '/')).reverse)

/-- Strip trailing slashes from a character list (the `rstrip` step of
`posixpath.dirname`). -/
def rstripSlash (cs : List Char) : List Char :=
  (cs.reverse.dropWhile (fun c => c = '/')).reverse

/-- Modelled from Python `posixpath.dirname` (used as `os.path.dirname` in
`s3_base.py`): the path up to and including the last slash, with trailing
slashes stripped unless the head consists of slashes only. -/
def dirname (p : String) : String :=
  let head := (p.data.reverse.dropWhile (fun c => c ≠ '/')).reverse
  if head.isEmpty then ""
  else if head.all (fun c => c = '/') then String.mk head
  else String.mk (rstripSlash head)

/-- Split a character list at every slash. -/
def splitSlash : List Char → List (List Char)
  | [] => [[]]
  | c :: cs =>
    if c = '/' then [] :: splitSlash cs
    else match splitSlash cs with
      | [] => [[c]]
      | g :: gs => (c :: g) :: gs

/-- Join character-list path components with slashes. -/
def joinSlash : List (List Char) → List Char
  | [] => []
  | [g] => g
  | g :: gs => g ++ '/' :: joinSlash gs

/-- The directories `os.makedirs` ensures exist for a target path: every
slash-boundary ancestor of the path, innermost last. -/
def ancestorDirs (p : String) : List String :=
  let parts := splitSlash p.data
  ((List.range parts.length).map
    (fun i => String.mk (joinSlash (parts.take (i + 1))))).filter
    (fun d => d ≠ "")

/-- Modelled from Python `os.makedirs(name, exist_ok=...)` over a
filesystem given as the list of existing directories: raises
`FileExistsError` when the target exists and `exist_ok` is false,
otherwise adds every missing ancestor directory of the target. -/
def makedirs (fs : List String) (p : String) (exist_ok : Bool) :
    Except String (List String) :=
  if p ∈ fs ∧ exist_ok = false then .error ("FileExistsError: " ++ p)
  else .ok (fs ++ (ancestorDirs p).filter (fun d => ¬ d ∈ fs))

/-- Outcome of one call into the underlying boto3 client.  `clientError m`
models a `botocore.exceptions.ClientError` whose `str(e)` is `m` — the only
exception type the `except` clauses in `s3_base.py` catch.  `otherError m`
models any other exception a backend call can raise (for example botocore
transport errors such as `EndpointConnectionError`, or
`boto3.exceptions.S3UploadFailedError`, none of which are `ClientError`
subclasses). -/
inductive BackendOutcome (α : Type) where
  | ok (a : α)
  | clientError (msg : String)
  | otherError (msg : String)
deriving DecidableEq, Repr

/-- Exception escaping an adapter operation: `wrapped m` is the generic
`Exception(m)` the adapter itself raises after catching a `ClientError`;
`unhandled m` is a backend exception the `except ClientError` clause did
not catch and that propagates as-is. -/
inductive StorageExc where
  | wrapped (msg : String)
  | unhandled (msg : String)
deriving DecidableEq, Repr

/-- Message prefix used by the adapter for each error-taxonomy kind of the
specification (the code distinguishes the kinds by message prefix, raising
a plain `Exception` in each case). -/
def kindMsg : String → String
  | "UploadError" => "Upload failed: "
  | "DownloadError" => "Download failed: "
  | "ListError" => "Listing failed: "
  | "DeleteError" => "Deletion failed: "
  | "MetadataError" => "Failed to get metadata: "
  | _ => ""

/-- An escaped exception belongs to taxonomy kind `k` when it is a wrapped
exception whose message starts with the message prefix of `k`. -/
def hasKind (e : StorageExc) (k : String) : Prop :=
  (k = "UploadError" ∨ k = "DownloadError" ∨ k = "ListError" ∨
    k = "DeleteError" ∨ k = "MetadataError") ∧
  ∃ core, e = .wrapped (kindMsg k ++ core)

/-- Embedding of `S3BaseStorage.upload_file` (`s3_base.py` lines 21-44).
`getUrl` is the `self._get_storage_url` virtual method supplied by the
subclass; `outcome` is the result of the `self.client.upload_file` call. -/
def S3BaseStorage.upload_file (getUrl : String → String → String)
    (local_fpath bucket_name : String) (fpath_in_bucket : Option String)
    (outcome : BackendOutcome Unit) : Except StorageExc (String × String) :=
  let key := match fpath_in_bucket with
    | none => basename local_fpath
    | some k => k
  match outcome with
  | .ok _ => .ok (key, getUrl bucket_name key)
  | .clientError m => .error (.wrapped ("Upload failed: " ++ m))
  | .otherError m => .error (.unhandled m)

/-- Embedding of `S3BaseStorage.download_file` (`s3_base.py` lines 46-77):
default the local path to the basename of the key, create the missing
directories of its directory component with `os.makedirs(..., exist_ok=True)`
when that component is non-empty, then perform the backend download.
Returns the filesystem after the directory step together with the
operation result. -/
def S3BaseStorage.download_file (fs : List String)
    (_bucket_name fpath_in_bucket : String) (local_fpath : Option String)
    (outcome : BackendOutcome Unit) :
    List String × Except StorageExc String :=
  let lp := match local_fpath with
    | none => basename fpath_in_bucket
    | some p => p
  let dir := dirname lp
  match (if dir ≠ "" then makedirs fs dir true else .ok fs) with
  | .error m => (fs, .error (.unhandled m))
  | .ok fs2 =>
    match outcome with
    | .ok _ => (fs2, .ok lp)
    | .clientError m => (fs2, .error (.wrapped ("Download failed: " ++ m)))
    | .otherError m => (fs2, .error (.unhandled m))

/-- One object of a bucket as reported by the backend listing. -/
structure S3Object where
  key : String
  size : Nat
  last_modified : Nat
deriving DecidableEq, Repr

/-- One entry of the dictionary list built by `list_files`. -/
structure ListEntry where
  key : String
  size : Nat
  last_modified : Nat
deriving DecidableEq, Repr

/-- Plain string prefix match on the character lists of two strings. -/
def strStartsWith (s pre : String) : Bool :=
  pre.data.isPrefixOf s.data

/-- Modelled from the documented semantics of `list_objects_v2` to which
the repository delegates filtering: with a `Prefix` argument the backend
returns the objects whose key starts with it, without one it returns the
whole bucket (an empty bucket yields no `Contents`, i.e. the empty
list). -/
def list_objects_v2 (bucket : List S3Object) (pfx : Option String) :
    List S3Object :=
  match pfx with
  | none => bucket
  | some p => bucket.filter (fun o => strStartsWith o.key p)

/-- Embedding of `S3BaseStorage.list_files` (`s3_base.py` lines 79-111):
pass `Prefix` to the backend only when the prefix argument is truthy
(Python `if prefix:`), then project each object onto the
key/size/last-modified dictionary; `response.get` with default covers the
empty result. `pfx` stands for the Python parameter named after the
prefix-matching role it plays. -/
def S3BaseStorage.list_files (bucket : List S3Object) (pfx : Option String)
    (outcome : BackendOutcome Unit) : Except StorageExc (List ListEntry) :=
  match outcome with
  | .ok _ =>
    let resp := if strTruthy pfx then list_objects_v2 bucket pfx
                else list_objects_v2 bucket none
    .ok (resp.map (fun o => ⟨o.key, o.size, o.last_modified⟩))
  | .clientError m => .error (.wrapped ("Listing failed: " ++ m))
  | .otherError m => .error (.unhandled m)

/-- Embedding of `S3BaseStorage.delete_file` (`s3_base.py` lines 113-129). -/
def S3BaseStorage.delete_file (outcome : BackendOutcome Unit) :
    Except StorageExc Bool :=
  match outcome with
  | .ok _ => .ok true
  | .clientError m => .error (.wrapped ("Deletion failed: " ++ m))
  | .otherError m => .error (.unhandled m)

/-- Embedding of `S3BaseStorage.file_exists` (`s3_base.py` lines 127-142):
a successful `head_object` yields `True`, a `ClientError` yields `False`,
and any other exception is not caught. -/
def S3BaseStorage.file_exists (outcome : BackendOutcome Unit) :
    Except StorageExc Bool :=
  match outcome with
  | .ok _ => .ok true
  | .clientError _ => .ok false
  | .otherError m => .error (.unhandled m)

/-- Fields of a successful `head_object` response used by
`get_file_metadata`. -/
structure HeadObjectResponse where
  contentLength : Nat
  contentType : Option String
  lastModified : Nat
  metadata : List (String × String)
deriving DecidableEq, Repr

/-- The metadata dictionary built by `get_file_metadata`. -/
structure FileMetadata where
  content_length : Nat
  content_type : Option String
  last_modified : Nat
  metadata : List (String × String)
deriving DecidableEq, Repr

/-- Embedding of `S3BaseStorage.get_file_metadata` (`s3_base.py` lines
144-168). -/
def S3BaseStorage.get_file_metadata (outcome : BackendOutcome HeadObjectResponse) :
    Except StorageExc FileMetadata :=
  match outcome with
  | .ok r => .ok ⟨r.contentLength, r.contentType, r.lastModified, r.metadata⟩
  | .clientError m => .error (.wrapped ("Failed to get metadata: " ++ m))
  | .otherError m => .error (.unhandled m)

/-- Embedding of `S3Storage._get_storage_url` (`s3.py` lines 40-51). -/
def S3Storage_get_storage_url (bucket_name fpath_in_bucket : String) : String :=
  "s3://" ++ bucket_name ++ "/" ++ fpath_in_bucket

/-- Embedding of `R2Storage._get_storage_url` (`r2.py` lines 45-56). -/
def R2Storage_get_storage_url (bucket_name fpath_in_bucket : String) : String :=
  "r2://" ++ bucket_name ++ "/" ++ fpath_in_bucket

/-- C1: for every credential set (explicit parameters plus environment
fallbacks), a constructor failure of `S3Storage` or `R2Storage` is a
configuration error naming exactly the missing required fields together in
one report (membership in the reported list is equivalent to the field
being missing, the list has no duplicates, and the message joins exactly
that list); when no required field is missing, construction does not raise
a configuration error, and it raises one whenever some field is missing. -/
theorem c1_missing_fields_aggregated (pS : Option S3State) (pR : Option R2State)
    (ak sk acc r : Option String) (env : Env) :
    ((∀ e, S3Storage_init pS ak sk r env = .error e →
        ("access_key" ∈ e.missing_params ↔ strTruthy (pyOr ak env.s3AccessKeyId) = false) ∧
        ("secret_access_key" ∈ e.missing_params ↔
          strTruthy (pyOr sk env.s3SecretAccessKey) = false) ∧
        e.missing_params.Nodup ∧
        (∀ f ∈ e.missing_params, f = "access_key" ∨ f = "secret_access_key") ∧
        e.message = s3MissingMessage e.missing_params) ∧
      (strTruthy (pyOr ak env.s3AccessKeyId) = true →
        strTruthy (pyOr sk env.s3SecretAccessKey) = true →
        ∃ st, S3Storage_init pS ak sk r env = .ok st) ∧
      ((strTruthy (pyOr ak env.s3AccessKeyId) = false ∨
          strTruthy (pyOr sk env.s3SecretAccessKey) = false) →
        ∃ e, S3Storage_init pS ak sk r env = .error e)) ∧
    ((∀ e, R2Storage_init pR ak sk acc r env = .error e →
        ("access_key" ∈ e.missing_params ↔ strTruthy (pyOr ak env.r2AccessKeyId) = false) ∧
        ("secret_access_key" ∈ e.missing_params ↔
          strTruthy (pyOr sk env.r2SecretAccessKey) = false) ∧
        ("account_id" ∈ e.missing_params ↔ strTruthy (pyOr acc env.r2AccountId) = false) ∧
        e.missing_params.Nodup ∧
        (∀ f ∈ e.missing_params,
          f = "access_key" ∨ f = "secret_access_key" ∨ f = "account_id") ∧
        e.message = r2MissingMessage e.missing_params) ∧
      (strTruthy (pyOr ak env.r2AccessKeyId) = true →
        strTruthy (pyOr sk env.r2SecretAccessKey) = true →
        strTruthy (pyOr acc env.r2AccountId) = true →
        ∃ st, R2Storage_init pR ak sk acc r env = .ok st) ∧
      ((strTruthy (pyOr ak env.r2AccessKeyId) = false ∨
          strTruthy (pyOr sk env.r2SecretAccessKey) = false ∨
          strTruthy (pyOr acc env.r2AccountId) = false) →
        ∃ e, R2Storage_init pR ak sk acc r env = .error e)) := by
  constructor
  · rcases h1 : strTruthy (pyOr ak env.s3AccessKeyId) <;>
      rcases h2 : strTruthy (pyOr sk env.s3SecretAccessKey) <;>
      simp [S3Storage_init, h1, h2]
  · rcases h1 : strTruthy (pyOr ak env.r2AccessKeyId) <;>
      rcases h2 : strTruthy (pyOr sk env.r2SecretAccessKey) <;>
      rcases h3 : strTruthy (pyOr acc env.r2AccountId) <;>
      simp [R2Storage_init, h1, h2, h3]

/-- Witness for C1 at a concrete input: constructing `S3Storage` with only
the access key supplied reports exactly `secret_access_key` missing. -/
theorem c1_missing_fields_aggregated_witness :
    ∃ e, S3Storage_init none (some "AK") none none emptyEnv = .error e ∧
      "secret_access_key" ∈ e.missing_params ∧
      "access_key" ∉ e.missing_params ∧ e.missing_params.Nodup := by
  obtain ⟨⟨h1, _, h3⟩, _⟩ :=
    c1_missing_fields_aggregated none none (some "AK") none none none emptyEnv
  obtain ⟨e, he⟩ := h3 (Or.inr (by decide))
  obtain ⟨m1, m2, m3, _⟩ := h1 e he
  exact ⟨e, he, m2.mpr (by decide),
    fun hmem => absurd (m1.mp hmem) (by decide), m3⟩

/-- C9 counterexample: the claim says the resolved value is the explicit
constructor parameter whenever one is supplied, but supplying the empty
string as `access_key` while `S3_ACCESS_KEY_ID` is set resolves to the
environment value, not to the supplied parameter. -/
theorem c9_counterexample_empty_param_loses :
    pyOr (some "") (some "from-env") = some "from-env" ∧
    (some "from-env" : Option String) ≠ some "" ∧
    S3Storage_init none (some "") (some "SK") none
        ⟨some "from-env", none, none, none, none⟩ =
      .ok ⟨some "from-env", some "SK",
            ⟨some "from-env", some "SK", none, "auto"⟩⟩ := by
  refine ⟨by decide, by decide, rfl⟩

/-- C9 amended: the resolved value of each required credential field is the
explicit constructor parameter when a non-empty one is supplied; an absent
or empty parameter falls through to the corresponding environment variable;
the field is missing exactly when both the parameter and the environment
value are absent or empty. Each constructor field is resolved by this rule
against its own environment variable. -/
theorem c9_resolution_order (p e : Option String) :
    (∀ s : String, p = some s → s ≠ "" → pyOr p e = p) ∧
    ((p = none ∨ p = some "") → pyOr p e = e) ∧
    (strTruthy (pyOr p e) = false ↔
      ((p = none ∨ p = some "") ∧ (e = none ∨ e = some ""))) ∧
    (∀ (pS : Option S3State) (ak sk r : Option String) (env : Env) (st : S3State),
      S3Storage_init pS ak sk r env = .ok st →
        st.access_key = pyOr ak env.s3AccessKeyId ∧
        st.secret_key = pyOr sk env.s3SecretAccessKey) ∧
    (∀ (pR : Option R2State) (ak sk acc r : Option String) (env : Env) (st : R2State),
      R2Storage_init pR ak sk acc r env = .ok st →
        st.access_key = pyOr ak env.r2AccessKeyId ∧
        st.secret_key = pyOr sk env.r2SecretAccessKey ∧
        st.account_id = pyOr acc env.r2AccountId) := by
  refine ⟨?_, ?_, ?_, ?_, ?_⟩
  · rintro s rfl hs
    simp [pyOr, strTruthy, hs]
  · rintro (rfl | rfl) <;> simp [pyOr, strTruthy]
  · rcases p with _ | s <;> rcases e with _ | t <;>
      simp [pyOr, strTruthy] <;> by_cases hs : s = "" <;> simp [hs]
  · intro pS ak sk r env st h
    rcases h1 : strTruthy (pyOr ak env.s3AccessKeyId) <;>
      rcases h2 : strTruthy (pyOr sk env.s3SecretAccessKey) <;>
      simp [S3Storage_init, h1, h2] at h <;> simp [← h]
  · intro pR ak sk acc r env st h
    rcases h1 : strTruthy (pyOr ak env.r2AccessKeyId) <;>
      rcases h2 : strTruthy (pyOr sk env.r2SecretAccessKey) <;>
      rcases h3 : strTruthy (pyOr acc env.r2AccountId) <;>
      simp [R2Storage_init, h1, h2, h3] at h <;> simp [← h]

/-- Witness for C9 at concrete inputs: a non-empty explicit key wins over
the environment, and an absent one falls back to it. -/
theorem c9_resolution_order_witness :
    pyOr (some "AK") (some "from-env") = some "AK" ∧
    pyOr none (some "from-env") = some "from-env" := by
  refine ⟨(c9_resolution_order (some "AK") (some "from-env")).1 "AK" rfl (by decide),
    (c9_resolution_order none (some "from-env")).2.1 (Or.inl rfl)⟩

/-- C10: an explicit empty-string credential parameter behaves exactly like
an absent one — the environment fallback is consulted, and when that is
also absent or empty the field is reported missing; consequently every
successfully constructed client holds only truthy (non-`None`, non-empty)
credential fields. -/
theorem c10_empty_param_like_absent :
    (∀ e : Option String, pyOr (some "") e = pyOr none e) ∧
    (∀ (pS : Option S3State) (sk r : Option String) (env : Env),
      (env.s3AccessKeyId = none ∨ env.s3AccessKeyId = some "") →
      ∃ err, S3Storage_init pS (some "") sk r env = .error err ∧
        "access_key" ∈ err.missing_params) ∧
    (∀ (pR : Option R2State) (sk acc r : Option String) (env : Env),
      (env.r2AccessKeyId = none ∨ env.r2AccessKeyId = some "") →
      ∃ err, R2Storage_init pR (some "") sk acc r env = .error err ∧
        "access_key" ∈ err.missing_params) ∧
    (∀ (pS : Option S3State) (ak sk r : Option String) (env : Env) (st : S3State),
      S3Storage_init pS ak sk r env = .ok st →
        strTruthy st.access_key = true ∧ strTruthy st.secret_key = true) ∧
    (∀ (pR : Option R2State) (ak sk acc r : Option String) (env : Env) (st : R2State),
      R2Storage_init pR ak sk acc r env = .ok st →
        strTruthy st.access_key = true ∧ strTruthy st.secret_key = true ∧
        strTruthy st.account_id = true) := by
  refine ⟨fun e => by simp [pyOr, strTruthy], ?_, ?_, ?_, ?_⟩
  · intro pS sk r env henv
    have h1 : strTruthy (pyOr (some "") env.s3AccessKeyId) = false := by
      rcases henv with h | h <;> simp [pyOr, strTruthy, h]
    rcases h2 : strTruthy (pyOr sk env.s3SecretAccessKey) <;>
      simp [S3Storage_init, h1, h2]
  · intro pR sk acc r env henv
    have h1 : strTruthy (pyOr (some "") env.r2AccessKeyId) = false := by
      rcases henv with h | h <;> simp [pyOr, strTruthy, h]
    rcases h2 : strTruthy (pyOr sk env.r2SecretAccessKey) <;>
      rcases h3 : strTruthy (pyOr acc env.r2AccountId) <;>
      simp [R2Storage_init, h1, h2, h3]
  · intro pS ak sk r env st h
    rcases h1 : strTruthy (pyOr ak env.s3AccessKeyId) <;>
      rcases h2 : strTruthy (pyOr sk env.s3SecretAccessKey) <;>
      simp [S3Storage_init, h1, h2] at h <;> simp [← h, h1, h2]
  · intro pR ak sk acc r env st h
    rcases h1 : strTruthy (pyOr ak env.r2AccessKeyId) <;>
      rcases h2 : strTruthy (pyOr sk env.r2SecretAccessKey) <;>
      rcases h3 : strTruthy (pyOr acc env.r2AccountId) <;>
      simp [R2Storage_init, h1, h2, h3] at h <;> simp [← h, h1, h2, h3]

/-- Witness for C10 at a concrete input: empty access key with an empty
environment is reported missing. -/
theorem c10_empty_param_like_absent_witness :
    ∃ err, S3Storage_init none (some "") (some "SK") none emptyEnv = .error err ∧
      "access_key" ∈ err.missing_params :=
  c10_empty_param_like_absent.2.1 none (some "SK") none emptyEnv (Or.inl rfl)

/-- C4 counterexample: `StorageInterface.__new__` returns the per-class
singleton `cls._instance`, and Python then runs `__init__` on that same
object, so a second construction of `S3Storage` with different credentials
reassigns the attributes of the already-constructed instance. Concretely:
after constructing with access key `AK1`, constructing again with `AK2`
leaves the one shared instance holding `AK2` — its credentials changed
after construction, refuting immutability. -/
theorem c4_counterexample_second_construction_mutates :
    S3Storage_init none (some "AK1") (some "SK1") none emptyEnv =
      .ok ⟨some "AK1", some "SK1", ⟨some "AK1", some "SK1", none, "auto"⟩⟩ ∧
    S3Storage_init
        (some ⟨some "AK1", some "SK1", ⟨some "AK1", some "SK1", none, "auto"⟩⟩)
        (some "AK2") (some "SK2") none emptyEnv =
      .ok ⟨some "AK2", some "SK2", ⟨some "AK2", some "SK2", none, "auto"⟩⟩ ∧
    (⟨some "AK2", some "SK2", ⟨some "AK2", some "SK2", none, "auto"⟩⟩ : S3State) ≠
      ⟨some "AK1", some "SK1", ⟨some "AK1", some "SK1", none, "auto"⟩⟩ := by
  refine ⟨rfl, rfl, by decide⟩

/-- C4 amended: each instance is bound to one backend, and a client state
is fully determined by the construction that last ran on it — but because
each storage class is a singleton whose `__init__` re-runs on every
construction, a later construction of the same class rebinds the shared
instance to the credentials and client resolved from the new arguments
alone; the prior instance state has no influence on the outcome. -/
theorem c4_rebinding_ignores_previous_state (pS pS2 : Option S3State)
    (pR pR2 : Option R2State) (ak sk acc r : Option String) (env : Env) :
    S3Storage_init pS ak sk r env = S3Storage_init pS2 ak sk r env ∧
    R2Storage_init pR ak sk acc r env = R2Storage_init pR2 ak sk acc r env ∧
    (∀ st : S3State, S3Storage_init pS ak sk r env = .ok st →
      st.access_key = pyOr ak env.s3AccessKeyId ∧
      st.secret_key = pyOr sk env.s3SecretAccessKey ∧
      st.client.aws_access_key_id = pyOr ak env.s3AccessKeyId ∧
      st.client.aws_secret_access_key = pyOr sk env.s3SecretAccessKey) ∧
    (∀ st : R2State, R2Storage_init pR ak sk acc r env = .ok st →
      st.access_key = pyOr ak env.r2AccessKeyId ∧
      st.secret_key = pyOr sk env.r2SecretAccessKey ∧
      st.account_id = pyOr acc env.r2AccountId) := by
  refine ⟨rfl, rfl, ?_, ?_⟩
  · intro st h
    rcases h1 : strTruthy (pyOr ak env.s3AccessKeyId) <;>
      rcases h2 : strTruthy (pyOr sk env.s3SecretAccessKey) <;>
      simp [S3Storage_init, h1, h2] at h <;> simp [← h]
  · intro st h
    rcases h1 : strTruthy (pyOr ak env.r2AccessKeyId) <;>
      rcases h2 : strTruthy (pyOr sk env.r2SecretAccessKey) <;>
      rcases h3 : strTruthy (pyOr acc env.r2AccountId) <;>
      simp [R2Storage_init, h1, h2, h3] at h <;> simp [← h]

/-- Witness for C4 (amended) at a concrete input: the construction outcome
is the same whether or not a previous instance exists. -/
theorem c4_rebinding_ignores_previous_state_witness :
    S3Storage_init (some ⟨some "OLD", some "OLD", ⟨some "OLD", some "OLD", none, "auto"⟩⟩)
        (some "AK") (some "SK") none emptyEnv =
      S3Storage_init none (some "AK") (some "SK") none emptyEnv :=
  (c4_rebinding_ignores_previous_state
    (some ⟨some "OLD", some "OLD", ⟨some "OLD", some "OLD", none, "auto"⟩⟩) none
    none none (some "AK") (some "SK") none none emptyEnv).1

/-- C5: `upload_file` with no explicit key resolves the key to the basename
of the local path (its final path segment), and returns an explicit key
unchanged, in the first component of its result. -/
theorem c5_upload_key_resolution (u : String → String → String) (lp b k : String) :
    (∃ url, S3BaseStorage.upload_file u lp b none (.ok ()) =
      .ok (basename lp, url)) ∧
    (∃ url, S3BaseStorage.upload_file u lp b (some k) (.ok ()) = .ok (k, url)) ∧
    basename "some/dir/data.bin" = "data.bin" := by
  exact ⟨⟨u b (basename lp), rfl⟩, ⟨u b k, rfl⟩, by decide⟩

/-- C6: the S3 storage URL is exactly `s3://bucket/key` and the R2 storage
URL is exactly `r2://bucket/key`, purely syntactic; `upload_file` returns
exactly this formatted string for the resolved key as the second component
of its result. -/
theorem c6_storage_url_format (b k lp : String) :
    S3Storage_get_storage_url b k = "s3://" ++ b ++ "/" ++ k ∧
    R2Storage_get_storage_url b k = "r2://" ++ b ++ "/" ++ k ∧
    S3Storage_get_storage_url "mybucket" "a/b.txt" = "s3://mybucket/a/b.txt" ∧
    R2Storage_get_storage_url "mybucket" "a/b.txt" = "r2://mybucket/a/b.txt" ∧
    S3BaseStorage.upload_file S3Storage_get_storage_url lp b (some k) (.ok ()) =
      .ok (k, S3Storage_get_storage_url b k) ∧
    S3BaseStorage.upload_file S3Storage_get_storage_url lp b none (.ok ()) =
      .ok (basename lp, S3Storage_get_storage_url b (basename lp)) ∧
    S3BaseStorage.upload_file R2Storage_get_storage_url lp b (some k) (.ok ()) =
      .ok (k, R2Storage_get_storage_url b k) := by
  exact ⟨rfl, rfl, rfl, rfl, rfl, rfl, rfl⟩

/-- With `exist_ok=True`, `makedirs` never fails: it adds the missing
ancestor directories of the target. -/
lemma makedirs_true_ok (fs : List String) (p : String) :
    makedirs fs p true =
      .ok (fs ++ (ancestorDirs p).filter (fun d => ¬ d ∈ fs)) := by
  simp [makedirs]

/-- The operation result of `download_file` depends only on the resolved
local path and the backend outcome; the directory-creation step with
`exist_ok=True` never raises. -/
lemma download_file_snd (fs : List String) (b k : String) (lpOpt : Option String)
    (o : BackendOutcome Unit) :
    (S3BaseStorage.download_file fs b k lpOpt o).2 =
      match o with
      | .ok _ => .ok (match lpOpt with | none => basename k | some p => p)
      | .clientError m => .error (.wrapped ("Download failed: " ++ m))
      | .otherError m => .error (.unhandled m) := by
  simp only [S3BaseStorage.download_file, makedirs_true_ok]
  by_cases h : dirname (match lpOpt with | none => basename k | some p => p) = "" <;>
    simp [h] <;> cases o <;> rfl

/-- The filesystem after `download_file` gained the missing ancestors of the
directory component of the resolved local path, for every backend
outcome. -/
lemma download_file_fst (fs : List String) (b k : String) (lpOpt : Option String)
    (o : BackendOutcome Unit) :
    (S3BaseStorage.download_file fs b k lpOpt o).1 =
      (if dirname (match lpOpt with | none => basename k | some p => p) ≠ "" then
        fs ++ (ancestorDirs (dirname
          (match lpOpt with | none => basename k | some p => p))).filter
            (fun d => ¬ d ∈ fs)
      else fs) := by
  simp only [S3BaseStorage.download_file, makedirs_true_ok]
  by_cases h : dirname (match lpOpt with | none => basename k | some p => p) = "" <;>
    simp [h] <;> cases o <;> rfl

/-- C2 counterexample: the claim says no backend failure propagates
unwrapped from the five operations, but the `except` clauses catch only
`ClientError`; a backend exception of any other type (here a transport
failure) escapes `upload_file` as-is, belonging to no taxonomy kind. -/
theorem c2_counterexample_unwrapped_propagation :
    S3BaseStorage.upload_file S3Storage_get_storage_url "f.txt" "b" none
        (.otherError "Connection was closed before we received a valid response") =
      .error (.unhandled "Connection was closed before we received a valid response") ∧
    ∀ k, ¬ hasKind
      (.unhandled "Connection was closed before we received a valid response") k := by
  refine ⟨rfl, fun k hk => ?_⟩
  obtain ⟨-, core, hc⟩ := hk
  simp at hc

/-- C2 amended: every `ClientError` raised by the underlying backend call
is caught at the adapter boundary and re-raised as the taxonomy kind of the
operation family — `UploadError`, `DownloadError`, `ListError`,
`DeleteError`, `MetadataError` respectively — wrapping the underlying
failure message; backend exceptions that are not `ClientError` propagate
unwrapped. -/
theorem c2_clienterror_wrapped_per_family (u : String → String → String)
    (lp b k m : String) (lpOpt : Option String) (fs : List String)
    (bucket : List S3Object) (px : Option String) :
    (S3BaseStorage.upload_file u lp b (some k) (.clientError m) =
        .error (.wrapped ("Upload failed: " ++ m)) ∧
      hasKind (.wrapped ("Upload failed: " ++ m)) "UploadError") ∧
    ((S3BaseStorage.download_file fs b k lpOpt (.clientError m)).2 =
        .error (.wrapped ("Download failed: " ++ m)) ∧
      hasKind (.wrapped ("Download failed: " ++ m)) "DownloadError") ∧
    (S3BaseStorage.list_files bucket px (.clientError m) =
        .error (.wrapped ("Listing failed: " ++ m)) ∧
      hasKind (.wrapped ("Listing failed: " ++ m)) "ListError") ∧
    (S3BaseStorage.delete_file (.clientError m) =
        .error (.wrapped ("Deletion failed: " ++ m)) ∧
      hasKind (.wrapped ("Deletion failed: " ++ m)) "DeleteError") ∧
    (S3BaseStorage.get_file_metadata (.clientError m) =
        .error (.wrapped ("Failed to get metadata: " ++ m)) ∧
      hasKind (.wrapped ("Failed to get metadata: " ++ m)) "MetadataError") ∧
    (S3BaseStorage.upload_file u lp b (some k) (.otherError m) =
      .error (.unhandled m)) ∧
    ((S3BaseStorage.download_file fs b k lpOpt (.otherError m)).2 =
      .error (.unhandled m)) ∧
    (S3BaseStorage.list_files bucket px (.otherError m) = .error (.unhandled m)) ∧
    (S3BaseStorage.delete_file (.otherError m) = .error (.unhandled m)) ∧
    (S3BaseStorage.get_file_metadata (.otherError m) = .error (.unhandled m)) := by
  refine ⟨⟨rfl, Or.inl rfl, m, rfl⟩,
    ⟨download_file_snd fs b k lpOpt (.clientError m), Or.inr (Or.inl rfl), m, rfl⟩,
    ⟨rfl, Or.inr (Or.inr (Or.inl rfl)), m, rfl⟩,
    ⟨rfl, Or.inr (Or.inr (Or.inr (Or.inl rfl))), m, rfl⟩,
    ⟨rfl, Or.inr (Or.inr (Or.inr (Or.inr rfl))), m, rfl⟩,
    rfl, download_file_snd fs b k lpOpt (.otherError m), rfl, rfl, rfl⟩

/-- C3 counterexample: the claim says `file_exists` never raises and that
any failure of the head-object call, including infrastructure/transport
errors, degrades to `false`; but the `except` clause catches only
`ClientError`, so a transport failure that is not a `ClientError` escapes
as an exception instead of returning a boolean. -/
theorem c3_counterexample_transport_error_raises :
    S3BaseStorage.file_exists
        (.otherError "Could not connect to the endpoint URL") =
      .error (.unhandled "Could not connect to the endpoint URL") ∧
    ∀ bl : Bool, S3BaseStorage.file_exists
        (.otherError "Could not connect to the endpoint URL") ≠ .ok bl := by
  refine ⟨rfl, fun bl h => ?_⟩
  simp [S3BaseStorage.file_exists] at h

/-- C3 amended: `file_exists` returns `true` when the head-object call
succeeds; every `ClientError` of that call (including not-found and
service-reported infrastructure errors) degrades to `false` rather than an
exception; an exception that is not a `ClientError` is not caught and
propagates. -/
theorem c3_file_exists_degrades_clienterror (m : String) :
    S3BaseStorage.file_exists (.ok ()) = .ok true ∧
    S3BaseStorage.file_exists (.clientError m) = .ok false ∧
    S3BaseStorage.file_exists (.otherError m) = .error (.unhandled m) :=
  ⟨rfl, rfl, rfl⟩

/-- C7: `download_file` with no explicit local path returns the basename of
the key; for a destination path with a non-empty directory component, every
missing ancestor directory of that component exists in the filesystem after
the call, whatever the backend outcome (the directories are created before
the download is attempted), and the creation is idempotent: when the
directories already exist the filesystem is unchanged and no error is
raised. -/
theorem c7_download_dir_creation (fs : List String) (b k lp : String)
    (o : BackendOutcome Unit) :
    (S3BaseStorage.download_file fs b k none (.ok ())).2 = .ok (basename k) ∧
    (dirname lp ≠ "" →
      (∀ d ∈ ancestorDirs (dirname lp),
        d ∈ (S3BaseStorage.download_file fs b k (some lp) o).1) ∧
      ((∀ d ∈ ancestorDirs (dirname lp), d ∈ fs) →
        (S3BaseStorage.download_file fs b k (some lp) o).1 = fs)) := by
  refine ⟨download_file_snd fs b k none (.ok ()), fun hdir => ⟨?_, ?_⟩⟩
  · intro d hd
    rw [download_file_fst]
    simp only [hdir, if_pos, ne_eq, not_false_iff, if_true, List.mem_append]
    by_cases hfs : d ∈ fs
    · exact Or.inl hfs
    · exact Or.inr (by simp [List.mem_filter, hd, hfs])
  · intro hall
    rw [download_file_fst]
    have hnil : (ancestorDirs (dirname lp)).filter (fun d => ¬ d ∈ fs) = [] := by
      rw [List.filter_eq_nil_iff]
      intro a ha
      simp [hall a ha]
    simp only [hdir, ne_eq, not_false_iff, if_true, hnil, List.append_nil, if_pos]

/-- Witness for C7 at concrete inputs: downloading `a/f.txt` with no local
path yields `f.txt`; downloading to `out/nested/file.txt` on an empty
filesystem creates `out` and `out/nested` even when the backend call fails,
and changes nothing when both directories already exist. -/
theorem c7_download_dir_creation_witness :
    (S3BaseStorage.download_file [] "b" "a/f.txt" none (.ok ())).2 = .ok "f.txt" ∧
    "out" ∈ (S3BaseStorage.download_file [] "b" "k"
      (some "out/nested/file.txt") (.clientError "x")).1 ∧
    "out/nested" ∈ (S3BaseStorage.download_file [] "b" "k"
      (some "out/nested/file.txt") (.clientError "x")).1 ∧
    (S3BaseStorage.download_file ["out", "out/nested"] "b" "k"
      (some "out/nested/file.txt") (.clientError "x")).1 = ["out", "out/nested"] := by
  obtain ⟨h1, -⟩ :=
    c7_download_dir_creation [] "b" "a/f.txt" "out/nested/file.txt" (.clientError "x")
  obtain ⟨-, hA⟩ :=
    c7_download_dir_creation [] "b" "k" "out/nested/file.txt" (.clientError "x")
  obtain ⟨-, hB⟩ := c7_download_dir_creation ["out", "out/nested"] "b" "k"
    "out/nested/file.txt" (.clientError "x")
  refine ⟨h1, (hA (by decide)).1 "out" (by decide),
    (hA (by decide)).1 "out/nested" (by decide),
    (hB (by decide)).2 (by decide)⟩

/-- C8: with a non-empty prefix, `list_files` returns exactly the entries
whose key starts with that prefix (plain string prefix match), each entry
carrying the key, size and last-modified of the corresponding bucket
object; an empty bucket or a prefix matching nothing yields the empty list
rather than an error; the listing raises only when the backend call
fails. -/
theorem c8_list_files_prefix_match (bucket : List S3Object) (p m : String)
    (hp : p ≠ "") :
    (∀ entries, S3BaseStorage.list_files bucket (some p) (.ok ()) = .ok entries →
      (∀ e ∈ entries, strStartsWith e.key p = true) ∧
      (∀ o ∈ bucket, strStartsWith o.key p = true →
        (⟨o.key, o.size, o.last_modified⟩ : ListEntry) ∈ entries) ∧
      ((∀ o ∈ bucket, strStartsWith o.key p = false) → entries = [])) ∧
    (∃ entries, S3BaseStorage.list_files bucket (some p) (.ok ()) = .ok entries) ∧
    S3BaseStorage.list_files [] (some p) (.ok ()) = .ok [] ∧
    S3BaseStorage.list_files bucket (some p) (.clientError m) =
      .error (.wrapped ("Listing failed: " ++ m)) := by
  have hev : S3BaseStorage.list_files bucket (some p) (.ok ()) =
      .ok ((bucket.filter (fun o => strStartsWith o.key p)).map
        (fun o => ⟨o.key, o.size, o.last_modified⟩)) := by
    simp [S3BaseStorage.list_files, list_objects_v2, strTruthy, hp]
  refine ⟨?_, ⟨_, hev⟩, ?_, rfl⟩
  · intro entries hentries
    rw [hev] at hentries
    injection hentries with hentries
    subst hentries
    refine ⟨?_, ?_, ?_⟩
    · intro e he
      obtain ⟨o, ho, rfl⟩ := List.mem_map.mp he
      exact (List.mem_filter.mp ho).2
    · intro o ho hstart
      exact List.mem_map.mpr ⟨o, List.mem_filter.mpr ⟨ho, hstart⟩, rfl⟩
    · intro hnone
      have : bucket.filter (fun o => strStartsWith o.key p) = [] := by
        rw [List.filter_eq_nil_iff]
        intro a ha
        simp [hnone a ha]
      simp [this]
  · simp [S3BaseStorage.list_files, list_objects_v2, strTruthy, hp]

/-- Witness for C8 at a concrete input: listing with prefix `a/` over a
two-object bucket returns only the matching entry, and a no-match prefix
over the same bucket returns the empty list. -/
theorem c8_list_files_prefix_match_witness :
    (∃ entries, S3BaseStorage.list_files [⟨"a/x", 1, 2⟩, ⟨"b/y", 3, 4⟩]
        (some "a/") (.ok ()) = .ok entries ∧
      (∀ e ∈ entries, strStartsWith e.key "a/" = true) ∧
      (⟨"a/x", 1, 2⟩ : ListEntry) ∈ entries) ∧
    (∃ entries, S3BaseStorage.list_files [⟨"a/x", 1, 2⟩, ⟨"b/y", 3, 4⟩]
        (some "zzz-no-match") (.ok ()) = .ok entries ∧ entries = []) := by
  obtain ⟨hA1, hA2, -⟩ := c8_list_files_prefix_match
    [⟨"a/x", 1, 2⟩, ⟨"b/y", 3, 4⟩] "a/" "m" (by decide)
  obtain ⟨hB1, hB2, -⟩ := c8_list_files_prefix_match
    [⟨"a/x", 1, 2⟩, ⟨"b/y", 3, 4⟩] "zzz-no-match" "m" (by decide)
  obtain ⟨eA, heA⟩ := hA2
  obtain ⟨eB, heB⟩ := hB2
  obtain ⟨pA1, pA2, -⟩ := hA1 eA heA
  obtain ⟨-, -, pB3⟩ := hB1 eB heB
  exact ⟨⟨eA, heA, pA1, pA2 ⟨"a/x", 1, 2⟩ (by simp) (by decide)⟩,
    ⟨eB, heB, pB3 (by intro o ho; fin_cases ho <;> decide)⟩⟩

end StorageClient
